import Mathlib

/-!
Shallow embedding of the HeatWise compatibility/moderation modules.

Python floats on score arithmetic are modelled by exact rationals (ℚ);
transcendental distance arithmetic (math.sin / cos / sqrt / atan2 in the
Haversine formula) is modelled over the reals (ℝ).  A Python function that
can raise is embedded with result type `Except String _`; a Python function
that can return `None` where a number is expected is embedded with an
`Option` result.  Module-level mutable dictionaries are embedded as explicit
state arguments (`Nat → Option _`) threaded through the operations, and
`print` reporting as an explicit list of emitted messages.
-/

namespace GeolocationMeetings

/-- The `User` class of geolocation_meetings.py: user_id, name, latitude,
longitude. -/
structure User where
  user_id : Nat
  name : String
  latitude : ℝ
  longitude : ℝ

/-- Python's `math.radians`: degrees × π / 180. -/
noncomputable def radians (degrees : ℝ) : ℝ := degrees * (Real.pi / 180)

/-- Python's `math.atan2 y x` (C99 atan2 semantics on the reals). -/
noncomputable def atan2 (y x : ℝ) : ℝ :=
  if 0 < x then Real.arctan (y / x)
  else if x < 0 ∧ 0 ≤ y then Real.arctan (y / x) + Real.pi
  else if x < 0 ∧ y < 0 then Real.arctan (y / x) - Real.pi
  else if x = 0 ∧ 0 < y then Real.pi / 2
  else if x = 0 ∧ y < 0 then -(Real.pi / 2)
  else 0

/-- Embedding of `calculate_distance` of geolocation_meetings.py: Haversine distance with
Earth radius 6371 km. -/
noncomputable def calculate_distance (user1 user2 : User) : ℝ :=
  let R : ℝ := 6371
  let lat1 := radians user1.latitude
  let lon1 := radians user1.longitude
  let lat2 := radians user2.latitude
  let lon2 := radians user2.longitude
  let dlat := lat2 - lat1
  let dlon := lon2 - lon1
  let a := Real.sin (dlat / 2) ^ 2 +
    Real.cos lat1 * Real.cos lat2 * Real.sin (dlon / 2) ^ 2
  let c := 2 * atan2 (Real.sqrt a) (Real.sqrt (1 - a))
  R * c

/-- Embedding of `compare_interests` of geolocation_meetings.py: Jaccard similarity of the
two interest lists viewed as sets, with 0.5 returned when the union is
empty. -/
def compare_interests (user1_interests user2_interests : List String) : ℚ :=
  let common_interests := user1_interests.toFinset ∩ user2_interests.toFinset
  let all_interests := user1_interests.toFinset ∪ user2_interests.toFinset
  if all_interests = ∅ then 1/2
  else (common_interests.card : ℚ) / (all_interests.card : ℚ)

/-- Embedding of `compare_psychological_traits` of geolocation_meetings.py: the function
body is only a docstring, so the Python function always returns `None`,
embedded as `none`. -/
def compare_psychological_traits (user1_traits user2_traits : List String) :
    Option ℚ :=
  none

section
open Classical

/-- The decision tested by the loop body of `find_users_within_radius`
(line 58): the candidate's id differs from the target's and the Haversine
distance is within the radius. -/
noncomputable def near_pred (target_user : User) (radius : ℝ) (user : User) :
    Bool :=
  decide (user.user_id ≠ target_user.user_id ∧
    calculate_distance target_user user ≤ radius)

/-- Embedding of `find_users_within_radius` of geolocation_meetings.py: the accumulating
for-loop is embedded as structural recursion over the candidate list. -/
noncomputable def find_users_within_radius (target_user : User)
    (users : List User) (radius : ℝ) : List User :=
  match users with
  | [] => []
  | user :: rest =>
      if user.user_id ≠ target_user.user_id ∧
          calculate_distance target_user user ≤ radius then
        user :: find_users_within_radius target_user rest radius
      else
        find_users_within_radius target_user rest radius

/-- The geolocation record returned by the `get_user_location` collaborator
(a dict with "latitude" and "longitude" keys). -/
structure Location where
  latitude : ℝ
  longitude : ℝ

/-- The duck-typed user object consumed by the geolocation
`get_meeting_compatibility`: it accesses `.user_id`, `.name`, `.interests`
and `.traits`. -/
structure ProfiledUser where
  user_id : Nat
  name : String
  interests : List String
  traits : List String

/-- The score-combination expression on line 103 of geolocation_meetings.py:
`(proximity_score * 0.3) + (interests_score * 0.4) + (traits_score * 0.3)`,
with no clamping. -/
def geo_compose (proximity_score interests_score traits_score : ℚ) : ℚ :=
  proximity_score * (3/10) + interests_score * (4/10) + traits_score * (3/10)

/-- Embedding of `get_meeting_compatibility` of geolocation_meetings.py.  The
`get_user_location` collaborator (imported from users_data, absent there) is
a parameter returning `none` for an unresolvable location.  When both
locations resolve, the Python code computes
`traits_score = compare_psychological_traits(...)`, which is `None`, and then
evaluates `traits_score * 0.3`, which raises `TypeError`; the raise is
embedded as `Except.error`. -/
noncomputable def get_meeting_compatibility
    (get_user_location : Nat → Option Location)
    (user1 user2 : ProfiledUser) : Except String ℚ :=
  match get_user_location user1.user_id, get_user_location user2.user_id with
  | some location1, some location2 =>
      let distance := calculate_distance
        ⟨user1.user_id, user1.name, location1.latitude, location1.longitude⟩
        ⟨user2.user_id, user2.name, location2.latitude, location2.longitude⟩
      let proximity_score : ℚ := if distance ≤ 10 then 1 else 1/10
      let interests_score := compare_interests user1.interests user2.interests
      match compare_psychological_traits user1.traits user2.traits with
      | some traits_score =>
          Except.ok (geo_compose proximity_score interests_score traits_score)
      | none =>
          Except.error
            "TypeError: unsupported operand type(s) for *: NoneType and float"
  | _, _ => Except.ok 0

end

end GeolocationMeetings

namespace VirtualMeetings

/-- The `meetings` module dictionary of virtual_meetings.py: meeting_id ↦
ordered participant list, embedded as a map into `Option`. -/
def Roster := Nat → Option (List Nat)

/-- Embedding of `join_meeting` of virtual_meetings.py: append the user to a known
meeting's list; on an unknown meeting_id print an error and change nothing.
The second component collects the printed error messages. -/
def join_meeting (meetings : Roster) (meeting_id user_id : Nat) :
    Roster × List String :=
  match meetings meeting_id with
  | some users =>
      (fun m => if m = meeting_id then some (users ++ [user_id])
        else meetings m, [])
  | none =>
      (meetings,
        ["Error: Meeting with ID " ++ toString meeting_id ++ " not found."])

/-- Embedding of `end_meeting` of virtual_meetings.py: delete a known meeting_id; on an
unknown one print an error and change nothing. -/
def end_meeting (meetings : Roster) (meeting_id : Nat) :
    Roster × List String :=
  match meetings meeting_id with
  | some _ =>
      (fun m => if m = meeting_id then none else meetings m, [])
  | none =>
      (meetings,
        ["Error: Meeting with ID " ++ toString meeting_id ++ " not found."])

/-- Embedding of `remove_user_from_meeting` of virtual_meetings.py: on a known meeting,
remove the first occurrence of the user (Python `list.remove`) or print an
error if the user is absent; on an unknown meeting_id the function has no
`else` branch, so it silently does nothing. -/
def remove_user_from_meeting (meetings : Roster) (meeting_id user_id : Nat) :
    Roster × List String :=
  match meetings meeting_id with
  | some users =>
      if user_id ∈ users then
        (fun m => if m = meeting_id then some (users.erase user_id)
          else meetings m, [])
      else
        (meetings,
          ["Error: User with ID " ++ toString user_id ++
            " not found in meeting " ++ toString meeting_id ++ "."])
  | none => (meetings, [])

/-- The user record resolved by the `get_user_data` collaborator of
virtual_meetings.py; `get_meeting_compatibility` reads
`user_data.get("interests", [])` from it. -/
structure VUserData where
  interests : List String

/-- Modelled from the spec: `compare_interests` is imported by
virtual_meetings.py from users_data, where it is not defined.  Spec §4.3:
Jaccard similarity |intersection| / |union| of the two interest tag sets,
returning the neutral score 0.5 when both sets are empty. -/
def users_data_compare_interests (interests1 interests2 : List String) : ℚ :=
  if interests1.toFinset ∪ interests2.toFinset = ∅ then 1/2
  else ((interests1.toFinset ∩ interests2.toFinset).card : ℚ) /
    ((interests1.toFinset ∪ interests2.toFinset).card : ℚ)

/-- The score-combination-and-clamp expression on lines 92-95 of
virtual_meetings.py: `total = (interests + traits) / 2` followed by
`min(max(total, 0), 1)`. -/
def virtual_compose (interests_compatibility traits_compatibility : ℚ) : ℚ :=
  min (max ((interests_compatibility + traits_compatibility) / 2) 0) 1

/-- Embedding of `get_meeting_compatibility` of virtual_meetings.py.  `get_user_data` and
`compare_psychological_traits` are imported from users_data where neither is
defined; both collaborators are parameters (spec §6: directory resolve
returns a record or absent; §4.4: the trait provider may return `None`).
If both records resolve and the trait provider returns `None`, the Python
expression `(interests_compatibility + traits_compatibility) / 2` raises
`TypeError`, embedded as `Except.error`. -/
def get_meeting_compatibility (get_user_data : Nat → Option VUserData)
    (compare_psychological_traits : Nat → Nat → Option ℚ)
    (user_id1 user_id2 : Nat) : Except String ℚ :=
  match get_user_data user_id1, get_user_data user_id2 with
  | some user1_data, some user2_data =>
      let interests_compatibility :=
        users_data_compare_interests user1_data.interests user2_data.interests
      match compare_psychological_traits user_id1 user_id2 with
      | some traits_compatibility =>
          Except.ok (virtual_compose interests_compatibility
            traits_compatibility)
      | none =>
          Except.error
            "TypeError: unsupported operand type(s) for +: float and NoneType"
  | _, _ => Except.ok 0

end VirtualMeetings

namespace SpeedDating

/-- The interests term of `get_speed_dating_compatibility` in
speed_dating.py:
`len(A & B) / len(A | B) if len(A | B) > 0 else 0` — note the empty-union
default here is 0, not 0.5. -/
def interests_compatibility (interests1 interests2 : List String) : ℚ :=
  if 0 < (interests1.toFinset ∪ interests2.toFinset).card then
    ((interests1.toFinset ∩ interests2.toFinset).card : ℚ) /
      ((interests1.toFinset ∪ interests2.toFinset).card : ℚ)
  else 0

end SpeedDating

namespace UsersData

/-- The `blocked_users` module dictionary of users_data.py: user_id ↦
blocking reason. -/
def BlockedUsers := Nat → Option String

/-- Embedding of `block_user` of users_data.py: record the reason for the user. -/
def block_user (blocked_users : BlockedUsers) (user_id : Nat)
    (reason : String) : BlockedUsers :=
  fun u => if u = user_id then some reason else blocked_users u

/-- A user_info record passed to `create_user` ("name, age, interests,
etc."). -/
structure UserInfo where
  name : String
  age : Nat
  interests : List String

/-- The `user_data` module dictionary of users_data.py. -/
def UserDirectory := Nat → Option UserInfo

/-- Embedding of `create_user` of users_data.py: on a fresh id, store user_info and then
overwrite its "interests" entry with the empty list; on an existing id,
print an error and change nothing.  The second component collects the
printed error messages. -/
def create_user (user_data : UserDirectory) (user_id : Nat)
    (user_info : UserInfo) : UserDirectory × List String :=
  match user_data user_id with
  | none =>
      (fun u => if u = user_id then some { user_info with interests := [] }
        else user_data u, [])
  | some _ =>
      (user_data,
        ["Error: User with ID " ++ toString user_id ++ " already exists."])

end UsersData

namespace Moderation

/-- Python's `str.lower` on the ASCII letters (the blocklist is ASCII). -/
def py_lower_char (c : Char) : Char :=
  if 65 ≤ c.toNat ∧ c.toNat ≤ 90 then Char.ofNat (c.toNat + 32) else c

/-- A Python string lowered character-wise, modelled as a list of
characters. -/
def py_lower (s : List Char) : List Char := s.map py_lower_char

/-- The `bad_words` blocklist of moderate_text in moderation.py. -/
def bad_words : List (List Char) :=
  ["badword1".toList, "badword2".toList, "badword3".toList]

/-- The for-loop of `moderate_text`: test each blocklist word for substring
containment in the lowered text (Python `word in text.lower()`); on the
first hit call `block_user(sender_id, "Inappropriate language used.")` and
return False; if no word matches, return True.  The result pairs the
returned Bool with the updated blocked_users state and the list of
block_user calls made (as (user_id, reason) pairs). -/
def moderate_text_loop (blocked_users : UsersData.BlockedUsers)
    (lowered : List Char) (sender_id : Nat) :
    List (List Char) → Bool × UsersData.BlockedUsers × List (Nat × String)
  | [] => (true, blocked_users, [])
  | word :: rest =>
      if word <:+: lowered then
        (false,
          UsersData.block_user blocked_users sender_id
            "Inappropriate language used.",
          [(sender_id, "Inappropriate language used.")])
      else moderate_text_loop blocked_users lowered sender_id rest

/-- Embedding of `moderate_text` of moderation.py. -/
def moderate_text (blocked_users : UsersData.BlockedUsers) (text : List Char)
    (sender_id recipient_id : Nat) :
    Bool × UsersData.BlockedUsers × List (Nat × String) :=
  moderate_text_loop blocked_users (py_lower text) sender_id bad_words

/-- The `user_flags` module dictionary of moderation.py. -/
def UserFlags := Nat → Option Nat

/-- Embedding of `flag_user` of moderation.py: initialise an absent counter to 0,
increment it, and report whether the count reached the dangerous
threshold 3. -/
def flag_user (user_flags : UserFlags) (user_id : Nat) :
    Bool × UserFlags :=
  let cur := (user_flags user_id).getD 0
  let newCount := cur + 1
  (decide (3 ≤ newCount),
    fun u => if u = user_id then some newCount else user_flags u)

end Moderation

/-- Squares of sines of half-differences are insensitive to the order of
subtraction. -/
theorem sin_half_sub_sq_comm (p q : ℝ) :
    Real.sin ((p - q) / 2) ^ 2 = Real.sin ((q - p) / 2) ^ 2 := by
  rw [show p - q = -(q - p) by ring, neg_div, Real.sin_neg, neg_sq]

/-- C9: the Haversine distance of geolocation_meetings.py is symmetric, and
the distance from a user to itself is exactly 0 (proved for all coordinates,
hence in particular for valid ones). -/
theorem calculate_distance_symm_and_self :
    (∀ a b : GeolocationMeetings.User,
      GeolocationMeetings.calculate_distance a b =
        GeolocationMeetings.calculate_distance b a) ∧
    (∀ u : GeolocationMeetings.User,
      GeolocationMeetings.calculate_distance u u = 0) := by
  constructor
  · intro a b
    simp only [GeolocationMeetings.calculate_distance]
    rw [sin_half_sub_sq_comm, sin_half_sub_sq_comm
        (GeolocationMeetings.radians b.longitude),
      mul_comm (Real.cos (GeolocationMeetings.radians a.latitude))]
  · intro u
    simp [GeolocationMeetings.calculate_distance, GeolocationMeetings.atan2,
      Real.arctan_zero]

/-- C5: `find_users_within_radius` returns exactly the filter of the
candidate list — the order-preserving subsequence of candidates — by the
predicate "identifier differs from the target's and the distance to the
target is at most the radius"; the second conjunct characterises that
predicate. -/
theorem find_users_within_radius_characterisation :
    ∀ (target : GeolocationMeetings.User)
      (users : List GeolocationMeetings.User) (radius : ℝ),
      GeolocationMeetings.find_users_within_radius target users radius =
        users.filter (GeolocationMeetings.near_pred target radius) ∧
      ∀ u : GeolocationMeetings.User,
        GeolocationMeetings.near_pred target radius u = true ↔
          (u.user_id ≠ target.user_id ∧
            GeolocationMeetings.calculate_distance target u ≤ radius) := by
  intro target users radius
  constructor
  · induction users with
    | nil => rfl
    | cons u rest ih =>
        by_cases h : u.user_id ≠ target.user_id ∧
          GeolocationMeetings.calculate_distance target u ≤ radius
        · simp [GeolocationMeetings.find_users_within_radius,
            GeolocationMeetings.near_pred, h, List.filter_cons, ih]
        · simp [GeolocationMeetings.find_users_within_radius,
            GeolocationMeetings.near_pred, h, List.filter_cons, ih]
  · intro u
    simp [GeolocationMeetings.near_pred]

/-- C1 (code bug): with both locations resolvable, the geolocation
`get_meeting_compatibility` does NOT treat the `None` returned by
`compare_psychological_traits` as a trait component of 0; the Python
expression `traits_score * 0.3` raises `TypeError`, aborting the whole
scoring call instead of returning a composed score. -/
theorem geo_compatibility_faults_on_missing_traits :
    GeolocationMeetings.get_meeting_compatibility (fun _ => some ⟨0, 0⟩)
      ⟨1, "Alice", ["music"], ["calm"]⟩ ⟨2, "Bob", ["hiking"], ["bold"]⟩ =
      Except.error
        "TypeError: unsupported operand type(s) for *: NoneType and float" :=
  rfl

/-- C2 counterexample: the composition expression of
geolocation_meetings.py line 103 is not clamped — at the adversarial
component scores (2, 2, 2) it returns 2, which does not lie in [0, 1]. -/
theorem geo_compose_not_clamped :
    GeolocationMeetings.geo_compose 2 2 2 = 2 ∧
    ¬ GeolocationMeetings.geo_compose 2 2 2 ≤ 1 := by
  constructor
  · norm_num [GeolocationMeetings.geo_compose]
  · norm_num [GeolocationMeetings.geo_compose]

/-- C2 (amended): the geolocation composer returns the unclamped weighted
sum proximity × 0.3 + interests × 0.4 + traits × 0.3, which lies in [0, 1]
whenever all three component scores do; the virtual-meetings composer
returns (interests + traits) / 2 clamped to [0, 1], so its result lies in
[0, 1] even for adversarially out-of-range component scores. -/
theorem compose_bounds (p i t i2 t2 : ℚ)
    (hp0 : 0 ≤ p) (hp1 : p ≤ 1) (hi0 : 0 ≤ i) (hi1 : i ≤ 1)
    (ht0 : 0 ≤ t) (ht1 : t ≤ 1) :
    (GeolocationMeetings.geo_compose p i t =
        p * (3/10) + i * (4/10) + t * (3/10) ∧
      0 ≤ GeolocationMeetings.geo_compose p i t ∧
      GeolocationMeetings.geo_compose p i t ≤ 1) ∧
    (0 ≤ VirtualMeetings.virtual_compose i2 t2 ∧
      VirtualMeetings.virtual_compose i2 t2 ≤ 1) := by
  refine ⟨⟨rfl, ?_, ?_⟩, ?_, ?_⟩
  · unfold GeolocationMeetings.geo_compose
    nlinarith
  · unfold GeolocationMeetings.geo_compose
    nlinarith
  · unfold VirtualMeetings.virtual_compose
    exact le_min (le_max_right _ _) zero_le_one
  · exact min_le_right _ _

/-- C2 witness: the amended composition bounds at the concrete in-range
components (1, 1/2, 0) and the adversarially out-of-range virtual-composer
inputs (5, -7). -/
theorem compose_bounds_witness :
    (GeolocationMeetings.geo_compose 1 (1/2) 0 =
        1 * (3/10) + (1/2) * (4/10) + 0 * (3/10) ∧
      0 ≤ GeolocationMeetings.geo_compose 1 (1/2) 0 ∧
      GeolocationMeetings.geo_compose 1 (1/2) 0 ≤ 1) ∧
    (0 ≤ VirtualMeetings.virtual_compose 5 (-7) ∧
      VirtualMeetings.virtual_compose 5 (-7) ≤ 1) :=
  compose_bounds 1 (1/2) 0 5 (-7) (by norm_num) (by norm_num) (by norm_num)
    (by norm_num) (by norm_num) (by norm_num)

/-- C3: in both compatibility computations, a missing user record
(virtual_meetings) or a missing location (geolocation_meetings) for either
user yields the composed score `Except.ok 0` — exactly 0, with no raise. -/
theorem missing_record_scores_zero
    (loc : Nat → Option GeolocationMeetings.Location)
    (u1 u2 : GeolocationMeetings.ProfiledUser)
    (dir : Nat → Option VirtualMeetings.VUserData)
    (tp : Nat → Nat → Option ℚ) (id1 id2 : Nat)
    (hloc : loc u1.user_id = none ∨ loc u2.user_id = none)
    (hdir : dir id1 = none ∨ dir id2 = none) :
    GeolocationMeetings.get_meeting_compatibility loc u1 u2 = Except.ok 0 ∧
    VirtualMeetings.get_meeting_compatibility dir tp id1 id2 =
      Except.ok 0 := by
  constructor
  · unfold GeolocationMeetings.get_meeting_compatibility
    rcases hloc with h | h
    · rw [h]
    · rw [h]
      cases loc u1.user_id <;> rfl
  · unfold VirtualMeetings.get_meeting_compatibility
    rcases hdir with h | h
    · rw [h]
    · rw [h]
      cases dir id1 <;> rfl

/-- C3 witness: the everywhere-empty stores at users 1 and 2. -/
theorem missing_record_scores_zero_witness :
    GeolocationMeetings.get_meeting_compatibility (fun _ => none)
      ⟨1, "Alice", [], []⟩ ⟨2, "Bob", [], []⟩ = Except.ok 0 ∧
    VirtualMeetings.get_meeting_compatibility (fun _ => none)
      (fun _ _ => none) 1 2 = Except.ok 0 :=
  missing_record_scores_zero (fun _ => none) ⟨1, "Alice", [], []⟩
    ⟨2, "Bob", [], []⟩ (fun _ => none) (fun _ _ => none) 1 2
    (Or.inl rfl) (Or.inl rfl)

/-- C4 counterexample: the interest-similarity computation inside
`get_speed_dating_compatibility` defaults to 0, not 0.5, when both interest
sets are empty, so the 0.5 empty-union default does not hold in every
interest-similarity computation of the program. -/
theorem speed_dating_empty_union_default_is_zero :
    SpeedDating.interests_compatibility [] [] = 0 ∧
    SpeedDating.interests_compatibility [] [] ≠ 1/2 := by
  constructor
  · rfl
  · intro h
    exact absurd h (by norm_num [SpeedDating.interests_compatibility])

/-- C4 (amended): `compare_interests` of geolocation_meetings.py computes
Jaccard similarity |A ∩ B| / |A ∪ B| on a non-empty union, returns 0.5 on an
empty union, satisfies similarity(A, A) = 1 for non-empty A, and is
symmetric; the interest-similarity computation of speed_dating.py also
computes Jaccard similarity on a non-empty union but defaults to 0 (not 0.5)
on an empty union. -/
theorem interest_similarity_spec (l1 l2 e1 e2 m : List String)
    (hne : l1.toFinset ∪ l2.toFinset ≠ ∅)
    (he : e1.toFinset ∪ e2.toFinset = ∅)
    (hm : m.toFinset ≠ ∅) :
    GeolocationMeetings.compare_interests l1 l2 =
      ((l1.toFinset ∩ l2.toFinset).card : ℚ) /
        ((l1.toFinset ∪ l2.toFinset).card : ℚ) ∧
    GeolocationMeetings.compare_interests e1 e2 = 1/2 ∧
    GeolocationMeetings.compare_interests m m = 1 ∧
    GeolocationMeetings.compare_interests l1 l2 =
      GeolocationMeetings.compare_interests l2 l1 ∧
    SpeedDating.interests_compatibility l1 l2 =
      ((l1.toFinset ∩ l2.toFinset).card : ℚ) /
        ((l1.toFinset ∪ l2.toFinset).card : ℚ) ∧
    SpeedDating.interests_compatibility e1 e2 = 0 := by
  have hcard : 0 < (l1.toFinset ∪ l2.toFinset).card :=
    Finset.card_pos.mpr (Finset.nonempty_iff_ne_empty.mpr hne)
  refine ⟨?_, ?_, ?_, ?_, ?_, ?_⟩
  · simp [GeolocationMeetings.compare_interests, hne]
  · simp [GeolocationMeetings.compare_interests, he]
  · have hc : ((m.toFinset.card : ℚ)) ≠ 0 := by
      exact_mod_cast Finset.card_ne_zero_of_mem (Finset.nonempty_iff_ne_empty.mpr hm).choose_spec
    simp [GeolocationMeetings.compare_interests, Finset.union_self,
      Finset.inter_self, hm, div_self hc]
  · simp only [GeolocationMeetings.compare_interests]
    rw [Finset.union_comm l2.toFinset, Finset.inter_comm l2.toFinset]
  · simp [SpeedDating.interests_compatibility, hcard]
  · simp [SpeedDating.interests_compatibility, he]

/-- C4 witness: the amended interest-similarity properties at the concrete
interest lists ["a", "b"] vs ["b", "c"], empty vs empty, and ["music"]. -/
theorem interest_similarity_spec_witness :
    GeolocationMeetings.compare_interests ["a", "b"] ["b", "c"] =
      (((["a", "b"] : List String).toFinset ∩
          (["b", "c"] : List String).toFinset).card : ℚ) /
        (((["a", "b"] : List String).toFinset ∪
          (["b", "c"] : List String).toFinset).card : ℚ) ∧
    GeolocationMeetings.compare_interests [] [] = 1/2 ∧
    GeolocationMeetings.compare_interests ["music"] ["music"] = 1 ∧
    GeolocationMeetings.compare_interests ["a", "b"] ["b", "c"] =
      GeolocationMeetings.compare_interests ["b", "c"] ["a", "b"] ∧
    SpeedDating.interests_compatibility ["a", "b"] ["b", "c"] =
      (((["a", "b"] : List String).toFinset ∩
          (["b", "c"] : List String).toFinset).card : ℚ) /
        (((["a", "b"] : List String).toFinset ∪
          (["b", "c"] : List String).toFinset).card : ℚ) ∧
    SpeedDating.interests_compatibility [] [] = 0 :=
  interest_similarity_spec ["a", "b"] ["b", "c"] [] [] ["music"]
    (by decide) (by decide) (by decide)

/-- The moderation loop on a word list containing a blocklisted substring of
the lowered text returns False together with exactly one block_user call on
the sender. -/
theorem moderate_text_loop_hit (blocked : UsersData.BlockedUsers)
    (lowered : List Char) (sender_id : Nat) (ws : List (List Char))
    (h : ∃ w ∈ ws, w <:+: lowered) :
    Moderation.moderate_text_loop blocked lowered sender_id ws =
      (false,
        UsersData.block_user blocked sender_id "Inappropriate language used.",
        [(sender_id, "Inappropriate language used.")]) := by
  induction ws with
  | nil => simp at h
  | cons w rest ih =>
      by_cases hw : w <:+: lowered
      · simp [Moderation.moderate_text_loop, hw]
      · rcases h with ⟨w', hw', hinf⟩
        rcases List.mem_cons.mp hw' with rfl | hmem
        · exact absurd hinf hw
        · simp only [Moderation.moderate_text_loop, if_neg hw]
          exact ih ⟨w', hmem, hinf⟩

/-- The moderation loop on a word list with no blocklisted substring of the
lowered text returns True, leaves the blocked_users state unchanged and makes
no block_user call. -/
theorem moderate_text_loop_miss (blocked : UsersData.BlockedUsers)
    (lowered : List Char) (sender_id : Nat) (ws : List (List Char))
    (h : ∀ w ∈ ws, ¬ w <:+: lowered) :
    Moderation.moderate_text_loop blocked lowered sender_id ws =
      (true, blocked, []) := by
  induction ws with
  | nil => rfl
  | cons w rest ih =>
      have hw : ¬ w <:+: lowered := h w (List.mem_cons_self w rest)
      simp only [Moderation.moderate_text_loop, if_neg hw]
      exact ih (fun w' hw' => h w' (List.mem_cons_of_mem w hw'))

/-- C6: when the text contains a blocklisted substring case-insensitively,
`moderate_text` returns False, records the block on the sender via
`block_user`, and makes exactly one block_user call; when no blocklisted
substring occurs, it returns True, makes no block_user call and leaves the
blocked_users state unchanged. -/
theorem moderate_text_spec (blocked : UsersData.BlockedUsers)
    (text1 text2 : List Char) (s1 r1 s2 r2 : Nat)
    (hbad : ∃ w ∈ Moderation.bad_words, w <:+: Moderation.py_lower text1)
    (hclean : ∀ w ∈ Moderation.bad_words,
      ¬ w <:+: Moderation.py_lower text2) :
    Moderation.moderate_text blocked text1 s1 r1 =
      (false,
        UsersData.block_user blocked s1 "Inappropriate language used.",
        [(s1, "Inappropriate language used.")]) ∧
    Moderation.moderate_text blocked text2 s2 r2 = (true, blocked, []) := by
  constructor
  · exact moderate_text_loop_hit blocked (Moderation.py_lower text1) s1
      Moderation.bad_words hbad
  · exact moderate_text_loop_miss blocked (Moderation.py_lower text2) s2
      Moderation.bad_words hclean

/-- C6 witness: the text "You BADWord1 fool" contains "badword1"
case-insensitively and is blocked with one block_user call on sender 4; the
text "hello there" is clean and passes with no call. -/
theorem moderate_text_spec_witness :
    Moderation.moderate_text (fun _ => none) "You BADWord1 fool".toList 4 5 =
      (false,
        UsersData.block_user (fun _ => none) 4 "Inappropriate language used.",
        [(4, "Inappropriate language used.")]) ∧
    Moderation.moderate_text (fun _ => none) "hello there".toList 6 7 =
      (true, fun _ => none, []) :=
  moderate_text_spec (fun _ => none) "You BADWord1 fool".toList
    "hello there".toList 4 5 6 7 (by decide) (by decide)

/-- C7: starting from a state in which the user has no flags, the first and
second `flag_user` calls return False and the third returns True. -/
theorem flag_user_three_strikes (user_flags : Moderation.UserFlags)
    (user_id : Nat) (h : user_flags user_id = none) :
    (Moderation.flag_user user_flags user_id).1 = false ∧
    (Moderation.flag_user
      (Moderation.flag_user user_flags user_id).2 user_id).1 = false ∧
    (Moderation.flag_user (Moderation.flag_user
      (Moderation.flag_user user_flags user_id).2 user_id).2 user_id).1 =
      true := by
  simp [Moderation.flag_user, h]

/-- C7 witness: the everywhere-unflagged state at user 7. -/
theorem flag_user_three_strikes_witness :
    (Moderation.flag_user (fun _ => none) 7).1 = false ∧
    (Moderation.flag_user
      (Moderation.flag_user (fun _ => none) 7).2 7).1 = false ∧
    (Moderation.flag_user (Moderation.flag_user
      (Moderation.flag_user (fun _ => none) 7).2 7).2 7).1 = true :=
  flag_user_three_strikes (fun _ => none) 7 rfl

/-- C8 counterexample: `remove_user_from_meeting` on an unknown meeting_id
reports nothing — its emitted-message list is empty — so the leave operation
does not report a non-fatal error as the claim states. -/
theorem remove_user_unknown_meeting_is_silent :
    (VirtualMeetings.remove_user_from_meeting (fun _ => none) 1 2).2 = [] :=
  rfl

/-- C8 (amended): on an unknown meeting_id, `join_meeting` and `end_meeting`
report a non-fatal error message and leave the roster unchanged, while
`remove_user_from_meeting` silently leaves the roster unchanged without
reporting; none of the three raises (each is a total function on the
roster). -/
theorem unknown_meeting_ops (meetings : VirtualMeetings.Roster)
    (meeting_id user_id : Nat) (h : meetings meeting_id = none) :
    VirtualMeetings.join_meeting meetings meeting_id user_id =
      (meetings, ["Error: Meeting with ID " ++ toString meeting_id ++
        " not found."]) ∧
    VirtualMeetings.end_meeting meetings meeting_id =
      (meetings, ["Error: Meeting with ID " ++ toString meeting_id ++
        " not found."]) ∧
    VirtualMeetings.remove_user_from_meeting meetings meeting_id user_id =
      (meetings, []) := by
  refine ⟨?_, ?_, ?_⟩
  · unfold VirtualMeetings.join_meeting
    rw [h]
  · unfold VirtualMeetings.end_meeting
    rw [h]
  · unfold VirtualMeetings.remove_user_from_meeting
    rw [h]

/-- C8 witness: the empty roster at meeting 3 and user 9. -/
theorem unknown_meeting_ops_witness :
    VirtualMeetings.join_meeting (fun _ => none) 3 9 =
      ((fun _ => none),
        ["Error: Meeting with ID " ++ toString 3 ++ " not found."]) ∧
    VirtualMeetings.end_meeting (fun _ => none) 3 =
      ((fun _ => none),
        ["Error: Meeting with ID " ++ toString 3 ++ " not found."]) ∧
    VirtualMeetings.remove_user_from_meeting (fun _ => none) 3 9 =
      ((fun _ => none), []) :=
  unknown_meeting_ops (fun _ => none) 3 9 rfl

/-- C10: `create_user` on a fresh id stores the supplied record with its
interests field overwritten by the empty list (other fields kept), touches
no other id and reports nothing; on an id already present it changes nothing
and reports an error. -/
theorem create_user_spec (user_data : UsersData.UserDirectory)
    (user_id other : Nat) (user_info : UsersData.UserInfo)
    (user_data2 : UsersData.UserDirectory) (user_id2 : Nat)
    (user_info2 r : UsersData.UserInfo)
    (hfresh : user_data user_id = none) (hother : other ≠ user_id)
    (hdup : user_data2 user_id2 = some r) :
    (UsersData.create_user user_data user_id user_info).1 user_id =
      some { user_info with interests := [] } ∧
    (UsersData.create_user user_data user_id user_info).1 other =
      user_data other ∧
    (UsersData.create_user user_data user_id user_info).2 = [] ∧
    (UsersData.create_user user_data2 user_id2 user_info2).1 = user_data2 ∧
    (UsersData.create_user user_data2 user_id2 user_info2).2 =
      ["Error: User with ID " ++ toString user_id2 ++
        " already exists."] := by
  refine ⟨?_, ?_, ?_, ?_, ?_⟩ <;>
    simp [UsersData.create_user, hfresh, hdup, hother]

/-- C10 witness: creating user 1 with supplied interests ["x"] in the empty
directory stores interests as [], and creating user 2 again over an existing
record reports an error and changes nothing. -/
theorem create_user_spec_witness :
    (UsersData.create_user (fun _ => none) 1 ⟨"Alice", 30, ["x"]⟩).1 1 =
      some { name := "Alice", age := 30, interests := [] } ∧
    (UsersData.create_user (fun _ => none) 1 ⟨"Alice", 30, ["x"]⟩).1 5 =
      (fun _ => (none : Option UsersData.UserInfo)) 5 ∧
    (UsersData.create_user (fun _ => none) 1 ⟨"Alice", 30, ["x"]⟩).2 = [] ∧
    (UsersData.create_user (fun _ => some ⟨"Bob", 40, []⟩) 2
      ⟨"Eve", 20, ["y"]⟩).1 = (fun _ => some ⟨"Bob", 40, []⟩) ∧
    (UsersData.create_user (fun _ => some ⟨"Bob", 40, []⟩) 2
      ⟨"Eve", 20, ["y"]⟩).2 =
      ["Error: User with ID " ++ toString 2 ++ " already exists."] :=
  create_user_spec (fun _ => none) 1 5 ⟨"Alice", 30, ["x"]⟩
    (fun _ => some ⟨"Bob", 40, []⟩) 2 ⟨"Eve", 20, ["y"]⟩ ⟨"Bob", 40, []⟩
    rfl (by decide) rfl
